import Mathlib

/-!
Shallow embedding of the IoT command module's collection-management logic
(`azure/cli/command_modules/iot/custom.py`).

Modelling conventions used throughout:
* The management client is modelled by passing the current state of the parent
  resource (IoT Hub description / DPS provisioning-service description) into each
  operation; listing calls (`list_keys`, linked-hub lists, ...) read that state.
* The observable outcome of a mutating operation is the `create_or_update`
  request it issues: target resource group, resource name, the full resubmitted
  body, and the IF-MATCH custom header if one is passed.  The request is the
  same whether or not `no_wait` is set, so the `no_wait` flag is not modelled.
* `knack` CLI errors become `Except.error` carrying the formatted message.
* Resource-group names are taken as already resolved
  (`_ensure_resource_group_name` is an external lookup).
-/

deriving instance DecidableEq for Except

namespace AzureIot

/-- Error raised to the CLI user (`knack.util.CLIError`); the formatted message is
the sole payload. -/
structure CLIError where
  msg : String
deriving DecidableEq

/-- A `create_or_update` request issued to the management client: target resource
group and resource name, the full resource body being resubmitted, and the
IF-MATCH custom header when the call passes one. -/
structure UpdateRequest (α : Type) where
  resource_group_name : String
  name : String
  body : α
  ifMatch : Option String
deriving DecidableEq

/-- Truthiness of an optional string argument as Python evaluates it in an `if`:
`None` and the empty string are falsy. -/
def truthy : Option String → Bool
  | none => false
  | some s => s != ""

/-- Python's `str.lower`, applied by the source to resource and entity names
(ASCII in practice): `Char.toLower` mapped over the characters.  (Core's
`String.toLower` computes the same map but is not kernel-reducible.) -/
def pyLower (s : String) : String := ⟨s.data.map Char.toLower⟩

/-- Python's `x if x else ''` applied to an optional string. -/
def strOrEmpty : Option String → String
  | some s => s
  | none => ""

/-- Mutation of the first element satisfying `p`, as performed by Python code
that obtains an object via `next(...)` and assigns to its attributes. -/
def updateFirst {α : Type} (p : α → Bool) (f : α → α) : List α → List α
  | [] => []
  | x :: xs => if p x then f x :: xs else x :: updateFirst p f xs

/-- Removal of the first element satisfying `p`, as performed by
`list.remove(next(...))`. -/
def eraseFirst {α : Type} (p : α → Bool) : List α → List α
  | [] => []
  | x :: xs => if p x then xs else x :: eraseFirst p xs

/-- In-place mutation of the entry stored under key `k` of a Python dict,
modelled on an association list with unique keys.  Indexing a missing key would
raise `KeyError` in Python; the operations below only ever index keys that the
construction of the resource guarantees to be present. -/
def setAt {α : Type} (d : List (String × α)) (k : String) (f : α → α) : List (String × α) :=
  d.map (fun kv => if kv.1 == k then (kv.1, f kv.2) else kv)

/-- `datetime.timedelta`, reduced to a whole number of seconds (the module only
builds timedeltas from whole hours or whole seconds). -/
structure Timedelta where
  seconds : Nat
deriving DecidableEq

def Timedelta.ofHours (h : Nat) : Timedelta := ⟨h * 3600⟩

def Timedelta.ofSeconds (s : Nat) : Timedelta := ⟨s⟩

/-! ## DPS (provisioning service) data model -/

/-- `SharedAccessSignatureAuthorizationRuleAccessRightsDescription` from the
provisioning-services SDK. -/
structure SharedAccessSignatureAuthorizationRuleAccessRightsDescription where
  key_name : String
  rights : String
  primary_key : Option String
  secondary_key : Option String
deriving DecidableEq

/-- `IotHubDefinitionDescription` (a DPS linked hub).  In the SDK the `name`
attribute is read-only and is absent on a freshly constructed description; it is
modelled as a plain string which the create operation leaves empty, while every
description fetched from the service carries its real name. -/
structure IotHubDefinitionDescription where
  name : String
  connection_string : String
  location : String
  apply_allocation_policy : Option Bool
  allocation_weight : Option Nat
deriving DecidableEq

/-- `IotDpsPropertiesDescription`: exactly the three attributes the module
reads and rebuilds. -/
structure IotDpsPropertiesDescription where
  iot_hubs : List IotHubDefinitionDescription
  allocation_policy : Option String
  authorization_policies : List SharedAccessSignatureAuthorizationRuleAccessRightsDescription
deriving DecidableEq

structure IotDpsSkuInfo where
  name : String
  capacity : Nat
deriving DecidableEq

/-- `ProvisioningServiceDescription`.  The `name` attribute is server-assigned;
descriptions freshly constructed by the module carry an empty name. -/
structure ProvisioningServiceDescription where
  name : String
  location : String
  properties : IotDpsPropertiesDescription
  sku : IotDpsSkuInfo
deriving DecidableEq

/-! ## DPS operations -/

/-- `_is_policy_existed`.  The source reads only `key_name` from each policy and
tests membership of the lowered name in the set of lowered key names; it is
modelled once over the list of key names and applied to `key_name`-projected
lists at each call site. -/
def _is_policy_existed (policy_key_names : List String) (policy_name : String) : Bool :=
  (policy_key_names.map pyLower).contains (pyLower policy_name)

/-- `_is_linked_hub_existed`, modelled over the list of linked-hub names. -/
def _is_linked_hub_existed (hub_names : List String) (hub_name : String) : Bool :=
  (hub_names.map pyLower).contains (pyLower hub_name)

/-- `_convert_rights_to_access_rights`: deduplicate and comma-join.  Python
iterates the set in unspecified order; modelled as first-occurrence order. -/
def _convert_rights_to_access_rights (right_list : List String) : String :=
  String.intercalate "," right_list.eraseDups

/-- `iot_dps_access_policy_create`. -/
def iot_dps_access_policy_create (dps : ProvisioningServiceDescription)
    (dps_name resource_group_name access_policy_name : String)
    (rights : List String) (primary_key secondary_key : Option String) :
    Except CLIError (UpdateRequest ProvisioningServiceDescription) :=
  let dps_access_policies := dps.properties.authorization_policies
  if _is_policy_existed (dps_access_policies.map (fun p => p.key_name)) access_policy_name then
    .error ⟨"Access policy " ++ access_policy_name ++ " already existed."⟩
  else
    let access_policy_rights := _convert_rights_to_access_rights rights
    let dps_access_policies := dps_access_policies ++
      [{ key_name := access_policy_name, rights := access_policy_rights,
         primary_key := primary_key, secondary_key := secondary_key }]
    .ok { resource_group_name := resource_group_name, name := dps_name,
          body := { name := "", location := dps.location,
                    properties := { iot_hubs := dps.properties.iot_hubs,
                                    allocation_policy := dps.properties.allocation_policy,
                                    authorization_policies := dps_access_policies },
                    sku := dps.sku },
          ifMatch := none }

/-- `iot_dps_access_policy_update`.  The existence check lowers both sides; the
per-entry mutation loop compares `key_name` case-sensitively. -/
def iot_dps_access_policy_update (dps : ProvisioningServiceDescription)
    (dps_name resource_group_name access_policy_name : String)
    (primary_key secondary_key : Option String) (rights : Option (List String)) :
    Except CLIError (UpdateRequest ProvisioningServiceDescription) :=
  let dps_access_policies := dps.properties.authorization_policies
  if !(_is_policy_existed (dps_access_policies.map (fun p => p.key_name)) access_policy_name) then
    .error ⟨"Access policy " ++ access_policy_name ++ " doesn't exist."⟩
  else
    let dps_access_policies := dps_access_policies.map (fun policy =>
      if policy.key_name == access_policy_name then
        { policy with
          primary_key := (match primary_key with | some k => some k | none => policy.primary_key),
          secondary_key := (match secondary_key with | some k => some k | none => policy.secondary_key),
          rights := (match rights with
            | some r => _convert_rights_to_access_rights r
            | none => policy.rights) }
      else policy)
    .ok { resource_group_name := resource_group_name, name := dps_name,
          body := { name := "", location := dps.location,
                    properties := { iot_hubs := dps.properties.iot_hubs,
                                    allocation_policy := dps.properties.allocation_policy,
                                    authorization_policies := dps_access_policies },
                    sku := dps.sku },
          ifMatch := none }

/-- `iot_dps_access_policy_delete`. -/
def iot_dps_access_policy_delete (dps : ProvisioningServiceDescription)
    (dps_name resource_group_name access_policy_name : String) :
    Except CLIError (UpdateRequest ProvisioningServiceDescription) :=
  let dps_access_policies := dps.properties.authorization_policies
  if !(_is_policy_existed (dps_access_policies.map (fun p => p.key_name)) access_policy_name) then
    .error ⟨"Access policy " ++ access_policy_name ++ " doesn't existed."⟩
  else
    let updated_policies := dps_access_policies.filter
      (fun p => (pyLower p.key_name) != (pyLower access_policy_name))
    .ok { resource_group_name := resource_group_name, name := dps_name,
          body := { name := "", location := dps.location,
                    properties := { iot_hubs := dps.properties.iot_hubs,
                                    allocation_policy := dps.properties.allocation_policy,
                                    authorization_policies := updated_policies },
                    sku := dps.sku },
          ifMatch := none }

/-- `iot_dps_linked_hub_create`: appends unconditionally (no duplicate check in
the source). -/
def iot_dps_linked_hub_create (dps : ProvisioningServiceDescription)
    (dps_name resource_group_name connection_string location : String)
    (apply_allocation_policy : Option Bool) (allocation_weight : Option Nat) :
    UpdateRequest ProvisioningServiceDescription :=
  let dps_linked_hubs := dps.properties.iot_hubs ++
    [{ name := "", connection_string := connection_string, location := location,
       apply_allocation_policy := apply_allocation_policy,
       allocation_weight := allocation_weight }]
  { resource_group_name := resource_group_name, name := dps_name,
    body := { name := "", location := dps.location,
              properties := { iot_hubs := dps_linked_hubs,
                              allocation_policy := dps.properties.allocation_policy,
                              authorization_policies := dps.properties.authorization_policies },
              sku := dps.sku },
    ifMatch := none }

/-- `iot_dps_linked_hub_update`.  The existence check lowers both sides; the
per-entry mutation loop compares `name` case-sensitively.  The source reuses the
access-policy wording in its error message. -/
def iot_dps_linked_hub_update (dps : ProvisioningServiceDescription)
    (dps_name resource_group_name linked_hub : String)
    (apply_allocation_policy : Option Bool) (allocation_weight : Option Nat) :
    Except CLIError (UpdateRequest ProvisioningServiceDescription) :=
  let dps_linked_hubs := dps.properties.iot_hubs
  if !(_is_linked_hub_existed (dps_linked_hubs.map (fun h => h.name)) linked_hub) then
    .error ⟨"Access policy " ++ linked_hub ++ " doesn't existed."⟩
  else
    let dps_linked_hubs := dps_linked_hubs.map (fun hub =>
      if hub.name == linked_hub then
        { hub with
          apply_allocation_policy := (match apply_allocation_policy with
            | some b => some b
            | none => hub.apply_allocation_policy),
          allocation_weight := (match allocation_weight with
            | some w => some w
            | none => hub.allocation_weight) }
      else hub)
    .ok { resource_group_name := resource_group_name, name := dps_name,
          body := { name := "", location := dps.location,
                    properties := { iot_hubs := dps_linked_hubs,
                                    allocation_policy := dps.properties.allocation_policy,
                                    authorization_policies := dps.properties.authorization_policies },
                    sku := dps.sku },
          ifMatch := none }

/-- `iot_dps_linked_hub_delete`. -/
def iot_dps_linked_hub_delete (dps : ProvisioningServiceDescription)
    (dps_name resource_group_name linked_hub : String) :
    Except CLIError (UpdateRequest ProvisioningServiceDescription) :=
  let dps_linked_hubs := dps.properties.iot_hubs
  if !(_is_linked_hub_existed (dps_linked_hubs.map (fun h => h.name)) linked_hub) then
    .error ⟨"Linked hub " ++ linked_hub ++ " doesn't existed."⟩
  else
    let updated_hub := dps_linked_hubs.filter (fun p => (pyLower p.name) != (pyLower linked_hub))
    .ok { resource_group_name := resource_group_name, name := dps_name,
          body := { name := "", location := dps.location,
                    properties := { iot_hubs := updated_hub,
                                    allocation_policy := dps.properties.allocation_policy,
                                    authorization_policies := dps.properties.authorization_policies },
                    sku := dps.sku },
          ifMatch := none }

/-- `_get_iot_dps_by_name`: subscription-wide listing followed by a
short-circuit linear scan under case-insensitive comparison. -/
def _get_iot_dps_by_name (all_dps : Option (List ProvisioningServiceDescription))
    (dps_name : String) : Except CLIError ProvisioningServiceDescription :=
  match all_dps with
  | none => .error ⟨"No DPS found in current subscription."⟩
  | some l =>
    match l.find? (fun x => pyLower dps_name == pyLower x.name) with
    | some target_dps => .ok target_dps
    | none => .error ⟨"No DPS found with name " ++ dps_name ++ " in current subscription."⟩

/-! ## IoT Hub data model -/

/-- The `AccessRights` enumeration of the IoT Hub SDK, restricted to the members
named in the module's `access_rights_mapping` table. -/
inductive AccessRights where
  | registry_read
  | registry_write
  | service_connect
  | device_connect
  | registry_read_registry_write
  | registry_read_service_connect
  | registry_read_device_connect
  | registry_write_service_connect
  | registry_write_device_connect
  | service_connect_device_connect
  | registry_read_registry_write_service_connect
  | registry_read_registry_write_device_connect
  | registry_read_service_connect_device_connect
  | registry_write_service_connect_device_connect
  | registry_read_registry_write_service_connect_device_connect
deriving DecidableEq

structure SharedAccessSignatureAuthorizationRule where
  key_name : String
  rights : AccessRights
  primary_key : Option String
  secondary_key : Option String
deriving DecidableEq

structure RoutingServiceBusQueueEndpointProperties where
  connection_string : String
  name : String
  subscription_id : String
  resource_group : String
deriving DecidableEq

structure RoutingServiceBusTopicEndpointProperties where
  connection_string : String
  name : String
  subscription_id : String
  resource_group : String
deriving DecidableEq

structure RoutingEventHubProperties where
  connection_string : String
  name : String
  subscription_id : String
  resource_group : String
deriving DecidableEq

structure RoutingStorageContainerProperties where
  connection_string : String
  name : String
  subscription_id : String
  resource_group : String
  container_name : String
  encoding : String
  file_name_format : String
  batch_frequency_in_seconds : Nat
  max_chunk_size_in_bytes : Nat
deriving DecidableEq

structure RoutingEndpoints where
  service_bus_queues : List RoutingServiceBusQueueEndpointProperties
  service_bus_topics : List RoutingServiceBusTopicEndpointProperties
  storage_containers : List RoutingStorageContainerProperties
  event_hubs : List RoutingEventHubProperties
deriving DecidableEq

structure RouteProperties where
  source : String
  name : String
  endpoint_names : List String
  condition : String
  is_enabled : Bool
deriving DecidableEq

structure EnrichmentProperties where
  key : String
  value : String
  endpoint_names : List String
deriving DecidableEq

/-- The hub's routing configuration.  A hub that has never had a message
enrichment carries `enrichments = None`, which the source guards for. -/
structure RoutingProperties where
  endpoints : RoutingEndpoints
  routes : List RouteProperties
  enrichments : Option (List EnrichmentProperties)
deriving DecidableEq

structure EventHubProperties where
  retention_time_in_days : Nat
  partition_count : Nat
deriving DecidableEq

structure FeedbackProperties where
  lock_duration_as_iso8601 : Timedelta
  ttl_as_iso8601 : Timedelta
  max_delivery_count : Nat
deriving DecidableEq

structure CloudToDeviceProperties where
  max_delivery_count : Nat
  default_ttl_as_iso8601 : Timedelta
  feedback : FeedbackProperties
deriving DecidableEq

structure MessagingEndpointProperties where
  max_delivery_count : Nat
  ttl_as_iso8601 : Timedelta
deriving DecidableEq

structure StorageEndpointProperties where
  sas_ttl_as_iso8601 : Timedelta
  connection_string : String
  container_name : String
deriving DecidableEq

structure IotHubSkuInfo where
  name : String
  capacity : Nat
deriving DecidableEq

/-- `IotHubProperties`, restricted to the attributes the module reads or
writes.  The keyed endpoint maps (`event_hub_endpoints`, `messaging_endpoints`,
`storage_endpoints`) are Python dicts, modelled as association lists. -/
structure IotHubProperties where
  event_hub_endpoints : List (String × EventHubProperties)
  messaging_endpoints : List (String × MessagingEndpointProperties)
  storage_endpoints : List (String × StorageEndpointProperties)
  cloud_to_device : CloudToDeviceProperties
  enable_file_upload_notifications : Bool
  authorization_policies : List SharedAccessSignatureAuthorizationRule
  routing : RoutingProperties
deriving DecidableEq

/-- `IotHubDescription`.  `resourcegroup` models
`additional_properties['resourcegroup']`; `etag` is the entity tag the service
returned with the description. -/
structure IotHubDescription where
  name : String
  location : String
  resourcegroup : String
  etag : String
  sku : IotHubSkuInfo
  properties : IotHubProperties
deriving DecidableEq

/-- Modelled from the spec: the `EndpointType` enumeration lives in the module's
`shared` file, which is not among the provided sources.  Its four members'
values are the distinct lowercase endpoint-kind names offered as CLI choices. -/
def EndpointType.eventHub : String := "eventhub"

/-- Modelled from the spec: see `EndpointType.eventHub`. -/
def EndpointType.serviceBusQueue : String := "servicebusqueue"

/-- Modelled from the spec: see `EndpointType.eventHub`. -/
def EndpointType.serviceBusTopic : String := "servicebustopic"

/-- Modelled from the spec: see `EndpointType.eventHub`. -/
def EndpointType.azureStorageContainer : String := "azurestoragecontainer"

/-- Modelled from the spec: the `EncodingFormat` enumeration from the same
shared file; `avro` is the default storage-endpoint encoding. -/
def EncodingFormat.avro : String := "avro"

/-! ## IoT Hub operations -/

/-- `_get_iot_hub_by_name`: subscription-wide listing followed by a
short-circuit linear scan under case-insensitive comparison. -/
def _get_iot_hub_by_name (all_hubs : Option (List IotHubDescription))
    (hub_name : String) : Except CLIError IotHubDescription :=
  match all_hubs with
  | none => .error ⟨"No IoT Hub found in current subscription."⟩
  | some hubs =>
    match hubs.find? (fun x => pyLower hub_name == pyLower x.name) with
    | some target_hub => .ok target_hub
    | none => .error ⟨"No IoT Hub found with name " ++ hub_name ++ " in current subscription."⟩

/-- Code-point lexicographic order on character lists, as Python compares
strings. -/
def charListLe : List Char → List Char → Bool
  | [], _ => true
  | _ :: _, [] => false
  | a :: as, b :: bs =>
    if a.toNat == b.toNat then charListLe as bs else Nat.blt a.toNat b.toNat

/-- Python's `<=` on strings. -/
def pyStrLe (a b : String) : Bool := charListLe a.data b.data

/-- Insertion of `x` into a list already sorted by `le`. -/
def insertSorted {α : Type} (le : α → α → Bool) (x : α) : List α → List α
  | [] => [x]
  | y :: ys => if le x y then x :: y :: ys else y :: insertSorted le x ys

/-- Python's `sorted`, as a stable insertion sort by `le`. -/
def pySorted {α : Type} (le : α → α → Bool) : List α → List α
  | [] => []
  | x :: xs => insertSorted le x (pySorted le xs)

/-- The module's `access_rights_mapping` dict. -/
def access_rights_mapping : String → Option AccessRights
  | "registryread" => some .registry_read
  | "registrywrite" => some .registry_write
  | "serviceconnect" => some .service_connect
  | "deviceconnect" => some .device_connect
  | "registryread_registrywrite" => some .registry_read_registry_write
  | "registryread_serviceconnect" => some .registry_read_service_connect
  | "deviceconnect_registryread" => some .registry_read_device_connect
  | "registrywrite_serviceconnect" => some .registry_write_service_connect
  | "deviceconnect_registrywrite" => some .registry_write_device_connect
  | "deviceconnect_serviceconnect" => some .service_connect_device_connect
  | "registryread_registrywrite_serviceconnect" => some .registry_read_registry_write_service_connect
  | "deviceconnect_registryread_registrywrite" => some .registry_read_registry_write_device_connect
  | "deviceconnect_registryread_serviceconnect" => some .registry_read_service_connect_device_connect
  | "deviceconnect_registrywrite_serviceconnect" => some .registry_write_service_connect_device_connect
  | "deviceconnect_registryread_registrywrite_serviceconnect" =>
      some .registry_read_registry_write_service_connect_device_connect
  | _ => none

/-- `_convert_perms_to_access_rights`: deduplicate, sort, join with `_`, look
up.  A key missing from the table raises `KeyError` in Python, modelled as
`none`. -/
def _convert_perms_to_access_rights (perm_list : List String) : Option AccessRights :=
  let sorted_perm_list := pySorted pyStrLe perm_list.eraseDups
  let perm_key := String.intercalate "_" sorted_perm_list
  access_rights_mapping perm_key

/-- `iot_hub_policy_create`.  The permission conversion runs first (an unknown
permission set raises `KeyError` before the duplicate check). -/
def iot_hub_policy_create (hub : IotHubDescription) (hub_name policy_name : String)
    (permissions : List String) :
    Except CLIError (UpdateRequest IotHubDescription) :=
  match _convert_perms_to_access_rights permissions with
  | none => .error ⟨"KeyError"⟩
  | some rights =>
    let policies := hub.properties.authorization_policies
    if _is_policy_existed (policies.map (fun p => p.key_name)) policy_name then
      .error ⟨"Policy " ++ policy_name ++ " already existed."⟩
    else
      let policies := policies ++
        [{ key_name := policy_name, rights := rights, primary_key := none, secondary_key := none }]
      .ok { resource_group_name := hub.resourcegroup, name := hub_name,
            body := { hub with properties.authorization_policies := policies },
            ifMatch := some hub.etag }

/-- `iot_hub_policy_delete`. -/
def iot_hub_policy_delete (hub : IotHubDescription) (hub_name policy_name : String) :
    Except CLIError (UpdateRequest IotHubDescription) :=
  let policies := hub.properties.authorization_policies
  if !(_is_policy_existed (policies.map (fun p => p.key_name)) policy_name) then
    .error ⟨"Policy " ++ policy_name ++ " not found."⟩
  else
    let updated_policies := policies.filter (fun p => p.key_name.toLower != (pyLower policy_name))
    .ok { resource_group_name := hub.resourcegroup, name := hub_name,
          body := { hub with properties.authorization_policies := updated_policies },
          ifMatch := some hub.etag }

/-- `iot_hub_routing_endpoint_create`: appends unconditionally to the typed
sub-collection selected by `endpoint_type` (no duplicate check); only the
storage-container branch validates its extra argument.  An unrecognised type
falls through every branch and resubmits the hub unchanged. -/
def iot_hub_routing_endpoint_create (hub : IotHubDescription)
    (resource_group_name hub_name endpoint_name endpoint_type : String)
    (endpoint_resource_group endpoint_subscription_id connection_string : String)
    (container_name encoding : Option String)
    (batch_frequency chunk_size_window : Nat) (file_name_format : String) :
    Except CLIError (UpdateRequest IotHubDescription) :=
  if EndpointType.eventHub == (pyLower endpoint_type) then
    .ok { resource_group_name := resource_group_name, name := hub_name,
          body := { hub with properties.routing.endpoints.event_hubs :=
            hub.properties.routing.endpoints.event_hubs ++
              [{ connection_string := connection_string, name := endpoint_name,
                 subscription_id := endpoint_subscription_id,
                 resource_group := endpoint_resource_group }] },
          ifMatch := some hub.etag }
  else if EndpointType.serviceBusQueue == (pyLower endpoint_type) then
    .ok { resource_group_name := resource_group_name, name := hub_name,
          body := { hub with properties.routing.endpoints.service_bus_queues :=
            hub.properties.routing.endpoints.service_bus_queues ++
              [{ connection_string := connection_string, name := endpoint_name,
                 subscription_id := endpoint_subscription_id,
                 resource_group := endpoint_resource_group }] },
          ifMatch := some hub.etag }
  else if EndpointType.serviceBusTopic == (pyLower endpoint_type) then
    .ok { resource_group_name := resource_group_name, name := hub_name,
          body := { hub with properties.routing.endpoints.service_bus_topics :=
            hub.properties.routing.endpoints.service_bus_topics ++
              [{ connection_string := connection_string, name := endpoint_name,
                 subscription_id := endpoint_subscription_id,
                 resource_group := endpoint_resource_group }] },
          ifMatch := some hub.etag }
  else if EndpointType.azureStorageContainer == (pyLower endpoint_type) then
    if !(truthy container_name) then
      .error ⟨"Container name is required."⟩
    else
      .ok { resource_group_name := resource_group_name, name := hub_name,
            body := { hub with properties.routing.endpoints.storage_containers :=
              hub.properties.routing.endpoints.storage_containers ++
                [{ connection_string := connection_string, name := endpoint_name,
                   subscription_id := endpoint_subscription_id,
                   resource_group := endpoint_resource_group,
                   container_name := strOrEmpty container_name,
                   encoding := (match encoding with
                     | some e => if e != "" then pyLower e else EncodingFormat.avro
                     | none => EncodingFormat.avro),
                   file_name_format := file_name_format,
                   batch_frequency_in_seconds := batch_frequency,
                   max_chunk_size_in_bytes := chunk_size_window * 1048576 }] },
            ifMatch := some hub.etag }
  else
    .ok { resource_group_name := resource_group_name, name := hub_name,
          body := hub, ifMatch := some hub.etag }

/-- `_delete_routing_endpoints`.  Three sequential phases exactly as in the
source: first the typed sub-collection named by `endpoint_type` is cleared,
then a name-based scan over the (already modified) four collections removes
matches from the first collection that contains one, and finally, when neither
argument was given, every collection is cleared. -/
def _delete_routing_endpoints (endpoint_name endpoint_type : Option String)
    (endpoints : RoutingEndpoints) : RoutingEndpoints :=
  let endpoints :=
    match endpoint_type with
    | none => endpoints
    | some t =>
      if t == "" then endpoints
      else if EndpointType.serviceBusQueue == (pyLower t) then
        { endpoints with service_bus_queues := [] }
      else if EndpointType.serviceBusTopic == (pyLower t) then
        { endpoints with service_bus_topics := [] }
      else if EndpointType.azureStorageContainer == (pyLower t) then
        { endpoints with storage_containers := [] }
      else if EndpointType.eventHub == (pyLower t) then
        { endpoints with event_hubs := [] }
      else endpoints
  let endpoints :=
    match endpoint_name with
    | none => endpoints
    | some n =>
      if n == "" then endpoints
      else if endpoints.service_bus_queues.any (fun e => pyLower e.name == pyLower n) then
        { endpoints with service_bus_queues :=
            endpoints.service_bus_queues.filter (fun e => pyLower e.name != pyLower n) }
      else if endpoints.service_bus_topics.any (fun e => pyLower e.name == pyLower n) then
        { endpoints with service_bus_topics :=
            endpoints.service_bus_topics.filter (fun e => pyLower e.name != pyLower n) }
      else if endpoints.storage_containers.any (fun e => pyLower e.name == pyLower n) then
        { endpoints with storage_containers :=
            endpoints.storage_containers.filter (fun e => pyLower e.name != pyLower n) }
      else if endpoints.event_hubs.any (fun e => pyLower e.name == pyLower n) then
        { endpoints with event_hubs :=
            endpoints.event_hubs.filter (fun e => pyLower e.name != pyLower n) }
      else endpoints
  if !(truthy endpoint_type) && !(truthy endpoint_name) then
    { endpoints with service_bus_queues := [], service_bus_topics := [],
                     storage_containers := [], event_hubs := [] }
  else endpoints

/-- `iot_hub_routing_endpoint_delete`: never fails, always resubmits. -/
def iot_hub_routing_endpoint_delete (hub : IotHubDescription)
    (resource_group_name hub_name : String) (endpoint_name endpoint_type : Option String) :
    UpdateRequest IotHubDescription :=
  { resource_group_name := resource_group_name, name := hub_name,
    body := { hub with properties.routing.endpoints :=
      _delete_routing_endpoints endpoint_name endpoint_type hub.properties.routing.endpoints },
    ifMatch := some hub.etag }

/-- Python's `str.split()` with no argument: split on whitespace runs and drop
empty pieces. -/
def pySplit (s : String) : List String :=
  (s.split Char.isWhitespace).filter (fun w => w != "")

/-- `iot_hub_route_create`: appends unconditionally (no duplicate check). -/
def iot_hub_route_create (hub : IotHubDescription)
    (resource_group_name hub_name route_name source_type endpoint_name : String)
    (enabled : Option Bool) (condition : Option String) :
    UpdateRequest IotHubDescription :=
  let routes := hub.properties.routing.routes ++
    [{ source := source_type, name := route_name,
       endpoint_names := pySplit endpoint_name,
       condition := (match condition with | none => "true" | some c => c),
       is_enabled := (match enabled with | none => true | some b => b) }]
  { resource_group_name := resource_group_name, name := hub_name,
    body := { hub with properties.routing.routes := routes },
    ifMatch := some hub.etag }

/-- `iot_hub_route_delete`: never fails; with neither argument it clears every
route, otherwise it filters by name and/or source, and always resubmits. -/
def iot_hub_route_delete (hub : IotHubDescription)
    (resource_group_name hub_name : String) (route_name source_type : Option String) :
    UpdateRequest IotHubDescription :=
  let routes := hub.properties.routing.routes
  let routes := if !(truthy route_name) && !(truthy source_type) then [] else routes
  let routes :=
    match route_name with
    | none => routes
    | some n => if n == "" then routes
                else routes.filter (fun route => pyLower route.name != pyLower n)
  let routes :=
    match source_type with
    | none => routes
    | some s => if s == "" then routes
                else routes.filter (fun route => pyLower route.source != pyLower s)
  { resource_group_name := resource_group_name, name := hub_name,
    body := { hub with properties.routing.routes := routes },
    ifMatch := some hub.etag }

/-- `iot_hub_route_update`: finds the first case-insensitive name match and
assigns only the supplied fields to it. -/
def iot_hub_route_update (hub : IotHubDescription)
    (resource_group_name hub_name route_name : String)
    (source_type endpoint_name : Option String) (enabled : Option Bool)
    (condition : Option String) :
    Except CLIError (UpdateRequest IotHubDescription) :=
  match hub.properties.routing.routes.find? (fun route => pyLower route.name == pyLower route_name) with
  | none => .error ⟨"No route found."⟩
  | some _ =>
    let routes := updateFirst (fun route => pyLower route.name == pyLower route_name)
      (fun route =>
        { route with
          source := (match source_type with | none => route.source | some s => s),
          endpoint_names := (match endpoint_name with
            | none => route.endpoint_names
            | some e => pySplit e),
          condition := (match condition with | none => route.condition | some c => c),
          is_enabled := (match enabled with | none => route.is_enabled | some b => b) })
      hub.properties.routing.routes
    .ok { resource_group_name := resource_group_name, name := hub_name,
          body := { hub with properties.routing.routes := routes },
          ifMatch := some hub.etag }

/-- `iot_message_enrichment_create`: initialises a missing list and appends
unconditionally (no duplicate check). -/
def iot_message_enrichment_create (hub : IotHubDescription)
    (resource_group_name hub_name key value : String) (endpoints : List String) :
    UpdateRequest IotHubDescription :=
  let enrichments := (match hub.properties.routing.enrichments with
    | none => []
    | some l => l)
  let enrichments := enrichments ++ [{ key := key, value := value, endpoint_names := endpoints }]
  { resource_group_name := resource_group_name, name := hub_name,
    body := { hub with properties.routing.enrichments := some enrichments },
    ifMatch := some hub.etag }

/-- `iot_message_enrichment_update`: case-sensitive key lookup; assigns all
three fields of the first match.  Iterating a missing enrichments list would
raise `TypeError` in Python, modelled as an error value. -/
def iot_message_enrichment_update (hub : IotHubDescription)
    (resource_group_name hub_name key value : String) (endpoints : List String) :
    Except CLIError (UpdateRequest IotHubDescription) :=
  match hub.properties.routing.enrichments with
  | none => .error ⟨"TypeError: NoneType is not iterable"⟩
  | some enrichments =>
    match enrichments.find? (fun endpoint => endpoint.key == key) with
    | none => .error ⟨"No message enrichment with that key exists"⟩
    | some _ =>
      let enrichments := updateFirst (fun endpoint => endpoint.key == key)
        (fun endpoint => { endpoint with key := key, value := value, endpoint_names := endpoints })
        enrichments
      .ok { resource_group_name := resource_group_name, name := hub_name,
            body := { hub with properties.routing.enrichments := some enrichments },
            ifMatch := some hub.etag }

/-- `iot_message_enrichment_delete`: case-sensitive key lookup; removes the
first match.  See `iot_message_enrichment_update` for the `None` case. -/
def iot_message_enrichment_delete (hub : IotHubDescription)
    (resource_group_name hub_name key : String) :
    Except CLIError (UpdateRequest IotHubDescription) :=
  match hub.properties.routing.enrichments with
  | none => .error ⟨"TypeError: NoneType is not iterable"⟩
  | some enrichments =>
    match enrichments.find? (fun endpoint => endpoint.key == key) with
    | none => .error ⟨"No message enrichment with that key exists"⟩
    | some _ =>
      let enrichments := eraseFirst (fun endpoint => endpoint.key == key) enrichments
      .ok { resource_group_name := resource_group_name, name := hub_name,
            body := { hub with properties.routing.enrichments := some enrichments },
            ifMatch := some hub.etag }

/-- The reply of `check_name_availability` on the management plane. -/
structure NameAvailabilityInfo where
  name_available : Bool
  message : String
deriving DecidableEq

/-- `iot_hub_create`.  Replies from the management plane are passed in:
`name_availability` is the `check_name_availability` answer and `rg_location`
the resource-group location `_ensure_location` would resolve when `location` is
omitted.  The validation checks run before either is consulted.  The result is
the `create_or_update` call issued (no IF-MATCH header is passed on initial
creation; the hub has no etag yet, modelled empty). -/
def iot_hub_create (name_availability : Option NameAvailabilityInfo) (rg_location : String)
    (hub_name resource_group_name : String) (location : Option String)
    (sku : String) (unit partition_count retention_day : Nat)
    (c2d_ttl c2d_max_delivery_count : Nat)
    (feedback_lock_duration feedback_ttl feedback_max_delivery_count : Nat)
    (enable_fileupload_notifications : Bool)
    (fileupload_notification_max_delivery_count fileupload_notification_ttl : Nat)
    (fileupload_storage_connectionstring fileupload_storage_container_name : Option String)
    (fileupload_sas_ttl : Nat) :
    Except CLIError (UpdateRequest IotHubDescription) :=
  if enable_fileupload_notifications &&
     (!(truthy fileupload_storage_connectionstring) ||
      !(truthy fileupload_storage_container_name)) then
    .error ⟨"Please specify storage endpoint(storage connection string and storage container name)."⟩
  else if truthy fileupload_storage_connectionstring &&
          !(truthy fileupload_storage_container_name) then
    .error ⟨"Please mention storage container name."⟩
  else if truthy fileupload_storage_container_name &&
          !(truthy fileupload_storage_connectionstring) then
    .error ⟨"Please mention storage connection string."⟩
  else
    let location := (match location with | none => rg_location | some l => l)
    let sku_info : IotHubSkuInfo := { name := sku, capacity := unit }
    let event_hub_dic : List (String × EventHubProperties) :=
      [("events", { retention_time_in_days := retention_day, partition_count := partition_count })]
    let feedback_Properties : FeedbackProperties :=
      { lock_duration_as_iso8601 := Timedelta.ofSeconds feedback_lock_duration,
        ttl_as_iso8601 := Timedelta.ofHours feedback_ttl,
        max_delivery_count := feedback_max_delivery_count }
    let cloud_to_device_properties : CloudToDeviceProperties :=
      { max_delivery_count := c2d_max_delivery_count,
        default_ttl_as_iso8601 := Timedelta.ofHours c2d_ttl,
        feedback := feedback_Properties }
    let msg_endpoint_dic : List (String × MessagingEndpointProperties) :=
      [("fileNotifications",
        { max_delivery_count := fileupload_notification_max_delivery_count,
          ttl_as_iso8601 := Timedelta.ofHours fileupload_notification_ttl })]
    let storage_endpoint_dic : List (String × StorageEndpointProperties) :=
      [("$default",
        { sas_ttl_as_iso8601 := Timedelta.ofHours fileupload_sas_ttl,
          connection_string := strOrEmpty fileupload_storage_connectionstring,
          container_name := strOrEmpty fileupload_storage_container_name })]
    let hub_description : IotHubDescription :=
      { name := "", location := location, resourcegroup := resource_group_name, etag := "",
        sku := sku_info,
        properties :=
          { event_hub_endpoints := event_hub_dic,
            messaging_endpoints := msg_endpoint_dic,
            storage_endpoints := storage_endpoint_dic,
            cloud_to_device := cloud_to_device_properties,
            enable_file_upload_notifications := enable_fileupload_notifications,
            authorization_policies := [],
            routing := { endpoints := { service_bus_queues := [], service_bus_topics := [],
                                        storage_containers := [], event_hubs := [] },
                         routes := [], enrichments := none } } }
    match name_availability with
    | some na =>
      if !na.name_available then .error ⟨na.message⟩
      else .ok { resource_group_name := resource_group_name, name := hub_name,
                 body := hub_description, ifMatch := none }
    | none => .ok { resource_group_name := resource_group_name, name := hub_name,
                    body := hub_description, ifMatch := none }

/-- `update_iot_hub_custom`: conditional attribute assignment on the fetched
hub; each omitted argument leaves its attribute untouched.  Only the paired
storage arguments are validated; enabling file-upload notifications alone is
accepted and merely sets the flag. -/
def update_iot_hub_custom (inst : IotHubDescription)
    (sku : Option String) (unit retention_day c2d_ttl c2d_max_delivery_count : Option Nat)
    (feedback_lock_duration feedback_ttl feedback_max_delivery_count : Option Nat)
    (enable_fileupload_notifications : Option Bool)
    (fileupload_notification_max_delivery_count fileupload_notification_ttl : Option Nat)
    (fileupload_storage_connectionstring fileupload_storage_container_name : Option String)
    (fileupload_sas_ttl : Option Nat) :
    Except CLIError IotHubDescription :=
  let inst := (match sku with
    | some s => { inst with sku.name := s }
    | none => inst)
  let inst := (match unit with
    | some u => { inst with sku.capacity := u }
    | none => inst)
  let inst := (match retention_day with
    | some d => { inst with properties.event_hub_endpoints :=
        (setAt inst.properties.event_hub_endpoints "events"
          (fun e => { e with retention_time_in_days := d })) }
    | none => inst)
  let inst := (match c2d_ttl with
    | some h => { inst with properties.cloud_to_device.default_ttl_as_iso8601 := Timedelta.ofHours h }
    | none => inst)
  let inst := (match c2d_max_delivery_count with
    | some c => { inst with properties.cloud_to_device.max_delivery_count := c }
    | none => inst)
  let inst := (match feedback_lock_duration with
    | some s => { inst with properties.cloud_to_device.feedback.lock_duration_as_iso8601 :=
        (Timedelta.ofSeconds s) }
    | none => inst)
  let inst := (match feedback_ttl with
    | some h => { inst with properties.cloud_to_device.feedback.ttl_as_iso8601 := Timedelta.ofHours h }
    | none => inst)
  let inst := (match feedback_max_delivery_count with
    | some c => { inst with properties.cloud_to_device.feedback.max_delivery_count := c }
    | none => inst)
  let inst := (match enable_fileupload_notifications with
    | some b => { inst with properties.enable_file_upload_notifications := b }
    | none => inst)
  let inst := (match fileupload_notification_max_delivery_count with
    | some c => { inst with properties.messaging_endpoints :=
        (setAt inst.properties.messaging_endpoints "fileNotifications"
          (fun e => { e with max_delivery_count := c })) }
    | none => inst)
  let inst := (match fileupload_notification_ttl with
    | some h => { inst with properties.messaging_endpoints :=
        (setAt inst.properties.messaging_endpoints "fileNotifications"
          (fun e => { e with ttl_as_iso8601 := Timedelta.ofHours h })) }
    | none => inst)
  let applySasTtl := fun (i : IotHubDescription) =>
    (match fileupload_sas_ttl with
      | some h => { i with properties.storage_endpoints :=
          (setAt i.properties.storage_endpoints "$default"
            (fun e => { e with sas_ttl_as_iso8601 := Timedelta.ofHours h })) }
      | none => i)
  match fileupload_storage_connectionstring, fileupload_storage_container_name with
  | some cs, some cn =>
    let inst := { inst with properties.storage_endpoints :=
      (setAt inst.properties.storage_endpoints "$default"
        (fun e => { e with connection_string := cs, container_name := cn })) }
    .ok (applySasTtl inst)
  | some _, none => .error ⟨"Please mention storage container name."⟩
  | none, some _ => .error ⟨"Please mention storage connection string."⟩
  | none, none => .ok (applySasTtl inst)

/-! ## Concrete states used by the example-level theorems -/

/-- A stored DPS access policy named `policy1` with both keys set. -/
def exPolicy1 : SharedAccessSignatureAuthorizationRuleAccessRightsDescription :=
  { key_name := "policy1", rights := "ServiceConfig",
    primary_key := some "A", secondary_key := some "B" }

/-- A linked hub named `hub1` as fetched from the service. -/
def exLinkedHub : IotHubDefinitionDescription :=
  { name := "hub1", connection_string := "cs", location := "westus",
    apply_allocation_policy := some true, allocation_weight := some 1 }

/-- A provisioning service holding one access policy and one linked hub. -/
def exDps : ProvisioningServiceDescription :=
  { name := "dps1", location := "westus",
    properties := { iot_hubs := [exLinkedHub], allocation_policy := some "Hashed",
                    authorization_policies := [exPolicy1] },
    sku := { name := "S1", capacity := 1 } }

/-- A service-bus-queue routing endpoint named `epQ`. -/
def exSbq : RoutingServiceBusQueueEndpointProperties :=
  { connection_string := "cs-q", name := "epQ", subscription_id := "sub", resource_group := "rg" }

/-- An event-hub routing endpoint named `epE`. -/
def exEh : RoutingEventHubProperties :=
  { connection_string := "cs-e", name := "epE", subscription_id := "sub", resource_group := "rg" }

/-- Routing endpoints with one service-bus queue and one event hub. -/
def exEndpoints : RoutingEndpoints :=
  { service_bus_queues := [exSbq], service_bus_topics := [],
    storage_containers := [], event_hubs := [exEh] }

/-- A route named `route1` over source `DeviceMessages`. -/
def exRoute : RouteProperties :=
  { source := "DeviceMessages", name := "route1", endpoint_names := ["epQ"],
    condition := "true", is_enabled := true }

/-- A stored hub-level shared-access policy named `iothubowner`. -/
def exHubPolicy : SharedAccessSignatureAuthorizationRule :=
  { key_name := "iothubowner",
    rights := .registry_read_registry_write_service_connect_device_connect,
    primary_key := some "PK", secondary_key := some "SK" }

/-- A message enrichment keyed `k1`. -/
def exEnrichment : EnrichmentProperties :=
  { key := "k1", value := "v1", endpoint_names := ["epQ"] }

/-- An IoT hub holding one policy, one route, one enrichment and the endpoints
of `exEndpoints`. -/
def exHub : IotHubDescription :=
  { name := "hub1", location := "westus", resourcegroup := "rg", etag := "etag-0",
    sku := { name := "S1", capacity := 1 },
    properties :=
      { event_hub_endpoints := [("events", { retention_time_in_days := 1, partition_count := 4 })],
        messaging_endpoints :=
          [("fileNotifications", { max_delivery_count := 10, ttl_as_iso8601 := Timedelta.ofHours 1 })],
        storage_endpoints :=
          [("$default", { sas_ttl_as_iso8601 := Timedelta.ofHours 1,
                          connection_string := "", container_name := "" })],
        cloud_to_device :=
          { max_delivery_count := 10, default_ttl_as_iso8601 := Timedelta.ofHours 1,
            feedback := { lock_duration_as_iso8601 := Timedelta.ofSeconds 5,
                          ttl_as_iso8601 := Timedelta.ofHours 1, max_delivery_count := 10 } },
        enable_file_upload_notifications := false,
        authorization_policies := [exHubPolicy],
        routing := { endpoints := exEndpoints, routes := [exRoute],
                     enrichments := some [exEnrichment] } } }

/-! ## General helper lemmas -/

/-- The element returned by `List.find?` is the first satisfying the predicate:
it sits at an index at which the predicate holds while the predicate fails at
every earlier index. -/
theorem find_first_aux {α : Type} (p : α → Bool) (l : List α) :
    ∀ a : α, l.find? p = some a →
      ∃ i : Fin l.length, l.get i = a ∧ p a = true ∧
        ∀ j : Fin l.length, j.val < i.val → p (l.get j) = false := by
  induction l with
  | nil => intro a h; simp at h
  | cons x xs ih =>
    intro a h
    by_cases hp : p x = true
    · rw [List.find?_cons_of_pos _ hp] at h
      obtain rfl : x = a := by injection h
      exact ⟨⟨0, Nat.succ_pos _⟩, rfl, hp, fun j hj => absurd hj (Nat.not_lt_zero _)⟩
    · have hp' : p x = false := by simpa using hp
      rw [List.find?_cons_of_neg _ hp] at h
      obtain ⟨i, hget, hpa, hfirst⟩ := ih a h
      refine ⟨⟨i.val + 1, Nat.succ_lt_succ i.isLt⟩, ?_, hpa, ?_⟩
      · simpa [List.get_cons_succ] using hget
      · intro j hj
        match j with
        | ⟨0, _⟩ => exact hp'
        | ⟨k + 1, hk⟩ =>
          have hki : k < i.val := by simpa using hj
          have := hfirst ⟨k, Nat.lt_of_succ_lt_succ hk⟩ hki
          simpa [List.get_cons_succ] using this

/-! ## Claims -/

/-- C9: `iot_hub_route_delete` invoked with neither a route name nor a source
type does not fail; it replaces the routes sub-collection with the empty list
and resubmits the parent hub (with its etag as IF-MATCH), deleting every route
of the hub. -/
theorem route_delete_no_args_clears_all_routes (hub : IotHubDescription)
    (resource_group_name hub_name : String) :
    iot_hub_route_delete hub resource_group_name hub_name none none =
      { resource_group_name := resource_group_name, name := hub_name,
        body := { hub with properties.routing.routes := [] },
        ifMatch := some hub.etag } := rfl

/-- C10: updating the DPS access policy stored as `policy1` under the
casing-different name `Policy1` passes the case-insensitive existence check,
matches no entry in the case-sensitive mutation loop, and completes without
error, resubmitting the parent with every sub-entity's fields unchanged; the
linked-hub update (stored `hub1`, requested `Hub1`) behaves the same way. -/
theorem dps_update_case_mismatch_resubmits_unchanged :
    _is_policy_existed (exDps.properties.authorization_policies.map (fun p => p.key_name))
        "Policy1" = true ∧
    (exDps.properties.authorization_policies.all (fun p => p.key_name != "Policy1")) = true ∧
    (iot_dps_access_policy_update exDps "dps1" "rg" "Policy1"
        (some "NEWPRIMARY") (some "NEWSECONDARY") none).map
      (fun r => r.body.properties.authorization_policies) =
        .ok exDps.properties.authorization_policies ∧
    _is_linked_hub_existed (exDps.properties.iot_hubs.map (fun h => h.name)) "Hub1" = true ∧
    (exDps.properties.iot_hubs.all (fun h => h.name != "Hub1")) = true ∧
    (iot_dps_linked_hub_update exDps "dps1" "rg" "Hub1" (some false) (some 7)).map
      (fun r => r.body.properties.iot_hubs) = .ok exDps.properties.iot_hubs := by
  decide

/-- C5: with the resource group omitted, the hub and DPS lookups scan the full
subscription listing and return the first entry whose name equals the requested
name case-insensitively; when no listed entry matches they fail with the
not-found error. -/
theorem get_by_name_first_case_insensitive_match :
    (∀ (hubs : List IotHubDescription) (n : String) (h : IotHubDescription),
       _get_iot_hub_by_name (some hubs) n = .ok h →
         ∃ i : Fin hubs.length, hubs.get i = h ∧ (pyLower n == pyLower h.name) = true ∧
           ∀ j : Fin hubs.length, j.val < i.val →
             (pyLower n == pyLower (hubs.get j).name) = false) ∧
    (∀ (hubs : List IotHubDescription) (n : String),
       (∀ h ∈ hubs, (pyLower n == pyLower h.name) = false) →
         _get_iot_hub_by_name (some hubs) n =
           .error ⟨"No IoT Hub found with name " ++ n ++ " in current subscription."⟩) ∧
    (∀ (l : List ProvisioningServiceDescription) (n : String)
       (d : ProvisioningServiceDescription),
       _get_iot_dps_by_name (some l) n = .ok d →
         ∃ i : Fin l.length, l.get i = d ∧ (pyLower n == pyLower d.name) = true ∧
           ∀ j : Fin l.length, j.val < i.val →
             (pyLower n == pyLower (l.get j).name) = false) ∧
    (∀ (l : List ProvisioningServiceDescription) (n : String),
       (∀ d ∈ l, (pyLower n == pyLower d.name) = false) →
         _get_iot_dps_by_name (some l) n =
           .error ⟨"No DPS found with name " ++ n ++ " in current subscription."⟩) := by
  refine ⟨?_, ?_, ?_, ?_⟩
  · intro hubs n h hok
    have hred : _get_iot_hub_by_name (some hubs) n =
        (match hubs.find? (fun x => pyLower n == pyLower x.name) with
         | some target_hub => .ok target_hub
         | none =>
            .error ⟨"No IoT Hub found with name " ++ n ++ " in current subscription."⟩) := rfl
    rw [hred] at hok
    rcases hfind : hubs.find? (fun x => pyLower n == pyLower x.name) with _ | h'
    · rw [hfind] at hok; cases hok
    · rw [hfind] at hok
      obtain rfl : h' = h := by injection hok
      exact find_first_aux _ hubs _ hfind
  · intro hubs n hnone
    have hfind : hubs.find? (fun x => pyLower n == pyLower x.name) = none :=
      List.find?_eq_none.mpr (fun x hx => by simp [hnone x hx])
    have hred : _get_iot_hub_by_name (some hubs) n =
        (match hubs.find? (fun x => pyLower n == pyLower x.name) with
         | some target_hub => .ok target_hub
         | none =>
            .error ⟨"No IoT Hub found with name " ++ n ++ " in current subscription."⟩) := rfl
    rw [hred, hfind]
  · intro l n d hok
    have hred : _get_iot_dps_by_name (some l) n =
        (match l.find? (fun x => pyLower n == pyLower x.name) with
         | some target_dps => .ok target_dps
         | none =>
            .error ⟨"No DPS found with name " ++ n ++ " in current subscription."⟩) := rfl
    rw [hred] at hok
    rcases hfind : l.find? (fun x => pyLower n == pyLower x.name) with _ | d'
    · rw [hfind] at hok; cases hok
    · rw [hfind] at hok
      obtain rfl : d' = d := by injection hok
      exact find_first_aux _ l _ hfind
  · intro l n hnone
    have hfind : l.find? (fun x => pyLower n == pyLower x.name) = none :=
      List.find?_eq_none.mpr (fun x hx => by simp [hnone x hx])
    have hred : _get_iot_dps_by_name (some l) n =
        (match l.find? (fun x => pyLower n == pyLower x.name) with
         | some target_dps => .ok target_dps
         | none =>
            .error ⟨"No DPS found with name " ++ n ++ " in current subscription."⟩) := rfl
    rw [hred, hfind]

/-- Witness for C5 at a concrete state: looking up `HUB1` in the
single-element listing `[exHub]` returns `exHub` at the first index, and an
unmatched DPS lookup fails with the not-found error. -/
theorem get_by_name_first_case_insensitive_match_witness :
    (∃ i : Fin [exHub].length, [exHub].get i = exHub ∧
       (pyLower "HUB1" == pyLower exHub.name) = true ∧
       ∀ j : Fin [exHub].length, j.val < i.val →
         (pyLower "HUB1" == pyLower ([exHub].get j).name) = false) ∧
    _get_iot_dps_by_name (some [exDps]) "other" =
      .error ⟨"No DPS found with name other in current subscription."⟩ :=
  ⟨get_by_name_first_case_insensitive_match.1 [exHub] "HUB1" exHub (by decide),
   get_by_name_first_case_insensitive_match.2.2.2 [exDps] "other" (by decide)⟩

/-- C7: a routing-endpoint delete given only a (valid, non-empty) endpoint
type empties exactly the typed endpoint sub-collection of that type and leaves
every entry of every other endpoint type unchanged. -/
theorem endpoint_delete_type_only_clears_exactly_that_type
    (hub : IotHubDescription) (resource_group_name hub_name t : String)
    (hvalid : pyLower t = EndpointType.serviceBusQueue ∨
              pyLower t = EndpointType.serviceBusTopic ∨
              pyLower t = EndpointType.azureStorageContainer ∨
              pyLower t = EndpointType.eventHub)
    (hne : t ≠ "") :
    (iot_hub_routing_endpoint_delete hub resource_group_name hub_name
        none (some t)).body.properties.routing.endpoints =
      { service_bus_queues := if pyLower t = EndpointType.serviceBusQueue then []
          else hub.properties.routing.endpoints.service_bus_queues,
        service_bus_topics := if pyLower t = EndpointType.serviceBusTopic then []
          else hub.properties.routing.endpoints.service_bus_topics,
        storage_containers := if pyLower t = EndpointType.azureStorageContainer then []
          else hub.properties.routing.endpoints.storage_containers,
        event_hubs := if pyLower t = EndpointType.eventHub then []
          else hub.properties.routing.endpoints.event_hubs } := by
  have htr : (t != "") = true := by simpa using hne
  show _delete_routing_endpoints none (some t) hub.properties.routing.endpoints = _
  rcases hvalid with h | h | h | h <;>
    simp +decide [_delete_routing_endpoints, truthy, htr, h,
      EndpointType.serviceBusQueue, EndpointType.serviceBusTopic,
      EndpointType.azureStorageContainer, EndpointType.eventHub] <;>
    exact fun hteq => absurd hteq hne

/-- Witness for C7 at a concrete state: deleting by type `EventHub` on `exHub`
clears the event hubs and keeps the service-bus queue entry. -/
theorem endpoint_delete_type_only_clears_exactly_that_type_witness :
    (iot_hub_routing_endpoint_delete exHub "rg" "hub1"
        none (some "EventHub")).body.properties.routing.endpoints =
      { service_bus_queues := [exSbq], service_bus_topics := [],
        storage_containers := [], event_hubs := [] } :=
  endpoint_delete_type_only_clears_exactly_that_type exHub "rg" "hub1" "EventHub"
    (by decide) (by decide)

/-- C4 counterexample: deleting with name `epQ` (stored among the service-bus
queues, the first collection with a name match) and type `eventhub` also
empties the event-hub collection, which contains no name match — so it is
false that only the first sub-collection containing a name match has entries
removed. -/
theorem endpoint_delete_both_args_counterexample :
    exEndpoints.service_bus_queues.any (fun e => pyLower e.name == pyLower "epQ") = true ∧
    exEndpoints.event_hubs.any (fun e => pyLower e.name == pyLower "epQ") = false ∧
    exEndpoints.event_hubs = [exEh] ∧
    (_delete_routing_endpoints (some "epQ") (some "eventhub") exEndpoints).service_bus_queues = [] ∧
    (_delete_routing_endpoints (some "epQ") (some "eventhub") exEndpoints).event_hubs = [] := by
  decide

/-- C4 amended: when both a (non-empty) endpoint name and endpoint type are
given, the typed sub-collection named by the type is emptied first, and
name-based removal then runs on the result: the combined call decomposes into
the type-only deletion followed by the name-only deletion.  The name-based
phase scans service-bus queues, then topics, then storage containers, then
event hubs, removes the case-insensitive matches from the first collection
containing one, leaves the other collections unchanged, and does nothing when
no collection matches. -/
theorem endpoint_delete_both_args_type_first_then_name :
    (∀ (E : RoutingEndpoints) (n t : String), n ≠ "" → t ≠ "" →
       _delete_routing_endpoints (some n) (some t) E =
         _delete_routing_endpoints (some n) none
           (_delete_routing_endpoints none (some t) E)) ∧
    (∀ (E : RoutingEndpoints) (n : String), n ≠ "" →
       E.service_bus_queues.any (fun e => pyLower e.name == pyLower n) = true →
       _delete_routing_endpoints (some n) none E =
         { E with service_bus_queues :=
             E.service_bus_queues.filter (fun e => pyLower e.name != pyLower n) }) ∧
    (∀ (E : RoutingEndpoints) (n : String), n ≠ "" →
       E.service_bus_queues.any (fun e => pyLower e.name == pyLower n) = false →
       E.service_bus_topics.any (fun e => pyLower e.name == pyLower n) = true →
       _delete_routing_endpoints (some n) none E =
         { E with service_bus_topics :=
             E.service_bus_topics.filter (fun e => pyLower e.name != pyLower n) }) ∧
    (∀ (E : RoutingEndpoints) (n : String), n ≠ "" →
       E.service_bus_queues.any (fun e => pyLower e.name == pyLower n) = false →
       E.service_bus_topics.any (fun e => pyLower e.name == pyLower n) = false →
       E.storage_containers.any (fun e => pyLower e.name == pyLower n) = true →
       _delete_routing_endpoints (some n) none E =
         { E with storage_containers :=
             E.storage_containers.filter (fun e => pyLower e.name != pyLower n) }) ∧
    (∀ (E : RoutingEndpoints) (n : String), n ≠ "" →
       E.service_bus_queues.any (fun e => pyLower e.name == pyLower n) = false →
       E.service_bus_topics.any (fun e => pyLower e.name == pyLower n) = false →
       E.storage_containers.any (fun e => pyLower e.name == pyLower n) = false →
       E.event_hubs.any (fun e => pyLower e.name == pyLower n) = true →
       _delete_routing_endpoints (some n) none E =
         { E with event_hubs :=
             E.event_hubs.filter (fun e => pyLower e.name != pyLower n) }) ∧
    (∀ (E : RoutingEndpoints) (n : String), n ≠ "" →
       E.service_bus_queues.any (fun e => pyLower e.name == pyLower n) = false →
       E.service_bus_topics.any (fun e => pyLower e.name == pyLower n) = false →
       E.storage_containers.any (fun e => pyLower e.name == pyLower n) = false →
       E.event_hubs.any (fun e => pyLower e.name == pyLower n) = false →
       _delete_routing_endpoints (some n) none E = E) := by
  refine ⟨?_, ?_, ?_, ?_, ?_, ?_⟩
  · intro E n t hn ht
    unfold _delete_routing_endpoints
    simp [truthy, hn, ht]
  · intro E n hn hq
    unfold _delete_routing_endpoints
    simp [truthy, hn, hq]
  · intro E n hn hq htop
    unfold _delete_routing_endpoints
    simp [truthy, hn, hq, htop]
  · intro E n hn hq htop hs
    unfold _delete_routing_endpoints
    simp [truthy, hn, hq, htop, hs]
  · intro E n hn hq htop hs he
    unfold _delete_routing_endpoints
    simp [truthy, hn, hq, htop, hs, he]
  · intro E n hn hq htop hs he
    unfold _delete_routing_endpoints
    simp [truthy, hn, hq, htop, hs, he]

/-- Witness for C4 at a concrete state: the combined `epQ`/`eventhub` delete
equals type-clearing followed by name-removal, and the name-only delete on
`exEndpoints` removes the queue entry only. -/
theorem endpoint_delete_both_args_type_first_then_name_witness :
    _delete_routing_endpoints (some "epQ") (some "eventhub") exEndpoints =
      _delete_routing_endpoints (some "epQ") none
        (_delete_routing_endpoints none (some "eventhub") exEndpoints) ∧
    _delete_routing_endpoints (some "epQ") none exEndpoints =
      { exEndpoints with service_bus_queues :=
          exEndpoints.service_bus_queues.filter (fun e => pyLower e.name != pyLower "epQ") } :=
  ⟨endpoint_delete_both_args_type_first_then_name.1 exEndpoints "epQ" "eventhub"
      (by decide) (by decide),
   endpoint_delete_both_args_type_first_then_name.2.1 exEndpoints "epQ"
      (by decide) (by decide)⟩

/-- C1 counterexample: creating a route named `route1` while a route of that
very name already exists does not fail with AlreadyExists; the entry is
appended, leaving two routes with the duplicate name. -/
theorem route_create_duplicate_appends_counterexample :
    exHub.properties.routing.routes.map (fun r => r.name) = ["route1"] ∧
    (iot_hub_route_create exHub "rg" "hub1" "route1" "DeviceMessages" "epQ"
        none none).body.properties.routing.routes.map (fun r => r.name) =
      ["route1", "route1"] := by
  decide

/-- C1 amended: only the DPS access-policy create and the IoT Hub policy
create scan for a case-insensitive duplicate name, failing with the
already-existed error and resubmitting nothing; the DPS linked-hub, route,
message-enrichment, and routing-endpoint creates perform no duplicate check
and always append the new entry to their sub-collection. -/
theorem create_duplicate_check_only_for_policy_creates :
    (∀ (dps : ProvisioningServiceDescription) (dn rg n : String) (r : List String)
       (pk sk : Option String),
       _is_policy_existed (dps.properties.authorization_policies.map (fun p => p.key_name)) n
           = true →
       iot_dps_access_policy_create dps dn rg n r pk sk =
         .error ⟨"Access policy " ++ n ++ " already existed."⟩) ∧
    (∀ (dps : ProvisioningServiceDescription) (dn rg n : String) (r : List String)
       (pk sk : Option String),
       _is_policy_existed (dps.properties.authorization_policies.map (fun p => p.key_name)) n
           = false →
       (iot_dps_access_policy_create dps dn rg n r pk sk).map
           (fun q => q.body.properties.authorization_policies) =
         .ok (dps.properties.authorization_policies ++
           [{ key_name := n, rights := _convert_rights_to_access_rights r,
              primary_key := pk, secondary_key := sk }])) ∧
    (∀ (hub : IotHubDescription) (hn n : String) (perms : List String) (ar : AccessRights),
       _convert_perms_to_access_rights perms = some ar →
       _is_policy_existed (hub.properties.authorization_policies.map (fun p => p.key_name)) n
           = true →
       iot_hub_policy_create hub hn n perms =
         .error ⟨"Policy " ++ n ++ " already existed."⟩) ∧
    (∀ (hub : IotHubDescription) (hn n : String) (perms : List String) (ar : AccessRights),
       _convert_perms_to_access_rights perms = some ar →
       _is_policy_existed (hub.properties.authorization_policies.map (fun p => p.key_name)) n
           = false →
       (iot_hub_policy_create hub hn n perms).map
           (fun q => q.body.properties.authorization_policies) =
         .ok (hub.properties.authorization_policies ++
           [{ key_name := n, rights := ar, primary_key := none, secondary_key := none }])) ∧
    (∀ (dps : ProvisioningServiceDescription) (dn rg cs loc : String)
       (ap : Option Bool) (w : Option Nat),
       (iot_dps_linked_hub_create dps dn rg cs loc ap w).body.properties.iot_hubs =
         dps.properties.iot_hubs ++
           [{ name := "", connection_string := cs, location := loc,
              apply_allocation_policy := ap, allocation_weight := w }]) ∧
    (∀ (hub : IotHubDescription) (rg hn rn st en : String) (e : Option Bool)
       (c : Option String),
       (iot_hub_route_create hub rg hn rn st en e c).body.properties.routing.routes =
         hub.properties.routing.routes ++
           [{ source := st, name := rn, endpoint_names := pySplit en,
              condition := (match c with | none => "true" | some c0 => c0),
              is_enabled := (match e with | none => true | some b => b) }]) ∧
    (∀ (hub : IotHubDescription) (rg hn k v : String) (eps : List String),
       (iot_message_enrichment_create hub rg hn k v eps).body.properties.routing.enrichments =
         some ((match hub.properties.routing.enrichments with | none => [] | some l => l) ++
           [{ key := k, value := v, endpoint_names := eps }])) ∧
    (∀ (hub : IotHubDescription) (rg hn en erg sub cs : String)
       (cn enc : Option String) (bf cw : Nat) (fmt : String),
       (iot_hub_routing_endpoint_create hub rg hn en "eventhub" erg sub cs
           cn enc bf cw fmt).map
           (fun q => q.body.properties.routing.endpoints.event_hubs) =
         .ok (hub.properties.routing.endpoints.event_hubs ++
           [{ connection_string := cs, name := en, subscription_id := sub,
              resource_group := erg }])) ∧
    (∀ (hub : IotHubDescription) (rg hn en erg sub cs : String)
       (cn enc : Option String) (bf cw : Nat) (fmt : String),
       (iot_hub_routing_endpoint_create hub rg hn en "servicebusqueue" erg sub cs
           cn enc bf cw fmt).map
           (fun q => q.body.properties.routing.endpoints.service_bus_queues) =
         .ok (hub.properties.routing.endpoints.service_bus_queues ++
           [{ connection_string := cs, name := en, subscription_id := sub,
              resource_group := erg }])) ∧
    (∀ (hub : IotHubDescription) (rg hn en erg sub cs : String)
       (cn enc : Option String) (bf cw : Nat) (fmt : String),
       (iot_hub_routing_endpoint_create hub rg hn en "servicebustopic" erg sub cs
           cn enc bf cw fmt).map
           (fun q => q.body.properties.routing.endpoints.service_bus_topics) =
         .ok (hub.properties.routing.endpoints.service_bus_topics ++
           [{ connection_string := cs, name := en, subscription_id := sub,
              resource_group := erg }])) ∧
    (∀ (hub : IotHubDescription) (rg hn en erg sub cs : String) (c : String)
       (enc : Option String) (bf cw : Nat) (fmt : String), c ≠ "" →
       (iot_hub_routing_endpoint_create hub rg hn en "azurestoragecontainer" erg sub cs
           (some c) enc bf cw fmt).map
           (fun q => q.body.properties.routing.endpoints.storage_containers) =
         .ok (hub.properties.routing.endpoints.storage_containers ++
           [{ connection_string := cs, name := en, subscription_id := sub,
              resource_group := erg, container_name := c,
              encoding := (match enc with
                | some e0 => if e0 != "" then pyLower e0 else EncodingFormat.avro
                | none => EncodingFormat.avro),
              file_name_format := fmt, batch_frequency_in_seconds := bf,
              max_chunk_size_in_bytes := cw * 1048576 }])) := by
  refine ⟨?_, ?_, ?_, ?_, fun _ _ _ _ _ _ _ => rfl, fun _ _ _ _ _ _ _ _ => rfl,
          fun _ _ _ _ _ _ => rfl, fun _ _ _ _ _ _ _ _ _ _ _ _ => rfl,
          fun _ _ _ _ _ _ _ _ _ _ _ _ => rfl, fun _ _ _ _ _ _ _ _ _ _ _ _ => rfl, ?_⟩
  · intro dps dn rg n r pk sk h
    simp [iot_dps_access_policy_create, h]
  · intro dps dn rg n r pk sk h
    simp [iot_dps_access_policy_create, h, Except.map]
  · intro hub hn n perms ar hconv h
    simp [iot_hub_policy_create, hconv, h]
  · intro hub hn n perms ar hconv h
    simp [iot_hub_policy_create, hconv, h, Except.map]
  · intro hub rg hn en erg sub cs c enc bf cw fmt hc
    simp +decide [iot_hub_routing_endpoint_create, truthy, hc, strOrEmpty, Except.map]

/-- Witness for C1 at concrete states: a case-insensitive duplicate
access-policy or hub-policy create fails with the already-existed error, and a
fresh access-policy create appends the new entry. -/
theorem create_duplicate_check_only_for_policy_creates_witness :
    iot_dps_access_policy_create exDps "dps1" "rg" "Policy1" ["ServiceConfig"] none none =
      .error ⟨"Access policy Policy1 already existed."⟩ ∧
    iot_hub_policy_create exHub "hub1" "IotHubOwner" ["registryread"] =
      .error ⟨"Policy IotHubOwner already existed."⟩ ∧
    (iot_dps_access_policy_create exDps "dps1" "rg" "policy2" ["EnrollmentRead"]
        none none).map (fun q => q.body.properties.authorization_policies) =
      .ok (exDps.properties.authorization_policies ++
        [{ key_name := "policy2", rights := "EnrollmentRead",
           primary_key := none, secondary_key := none }]) :=
  ⟨create_duplicate_check_only_for_policy_creates.1 exDps "dps1" "rg" "Policy1"
      ["ServiceConfig"] none none (by decide),
   create_duplicate_check_only_for_policy_creates.2.2.1 exHub "hub1" "IotHubOwner"
      ["registryread"] .registry_read (by decide) (by decide),
   create_duplicate_check_only_for_policy_creates.2.1 exDps "dps1" "rg" "policy2"
      ["EnrollmentRead"] none none (by decide)⟩

/-- C2 counterexample: deleting the route name `zzz`, which matches no route
of `exHub`, does not fail with NotFound — the parent hub is resubmitted (with
its collection unchanged); the routing-endpoint delete behaves the same way. -/
theorem delete_missing_name_still_resubmits_counterexample :
    exHub.properties.routing.routes.any (fun r => pyLower r.name == pyLower "zzz") = false ∧
    iot_hub_route_delete exHub "rg" "hub1" (some "zzz") none =
      { resource_group_name := "rg", name := "hub1", body := exHub,
        ifMatch := some "etag-0" } ∧
    iot_hub_routing_endpoint_delete exHub "rg" "hub1" (some "zzz") none =
      { resource_group_name := "rg", name := "hub1", body := exHub,
        ifMatch := some "etag-0" } := by
  decide

/-- C2 amended: the named update and delete operations on DPS access policies
and linked hubs, the route update, and the message-enrichment update and
delete fail with their not-found error when no entry matches, issuing no
resubmission; the route delete and the routing-endpoint delete perform no
existence check — a name matching nothing leaves the sub-collection unchanged
and the parent resource is still resubmitted. -/
theorem named_mutation_missing_entry_behaviour :
    (∀ (dps : ProvisioningServiceDescription) (dn rg n : String)
       (pk sk : Option String) (r : Option (List String)),
       _is_policy_existed (dps.properties.authorization_policies.map (fun p => p.key_name)) n
           = false →
       iot_dps_access_policy_update dps dn rg n pk sk r =
         .error ⟨"Access policy " ++ n ++ " doesn't exist."⟩) ∧
    (∀ (dps : ProvisioningServiceDescription) (dn rg n : String),
       _is_policy_existed (dps.properties.authorization_policies.map (fun p => p.key_name)) n
           = false →
       iot_dps_access_policy_delete dps dn rg n =
         .error ⟨"Access policy " ++ n ++ " doesn't existed."⟩) ∧
    (∀ (dps : ProvisioningServiceDescription) (dn rg n : String)
       (ap : Option Bool) (w : Option Nat),
       _is_linked_hub_existed (dps.properties.iot_hubs.map (fun h => h.name)) n = false →
       iot_dps_linked_hub_update dps dn rg n ap w =
         .error ⟨"Access policy " ++ n ++ " doesn't existed."⟩) ∧
    (∀ (dps : ProvisioningServiceDescription) (dn rg n : String),
       _is_linked_hub_existed (dps.properties.iot_hubs.map (fun h => h.name)) n = false →
       iot_dps_linked_hub_delete dps dn rg n =
         .error ⟨"Linked hub " ++ n ++ " doesn't existed."⟩) ∧
    (∀ (hub : IotHubDescription) (rg hn rn : String) (st en : Option String)
       (e : Option Bool) (c : Option String),
       hub.properties.routing.routes.find? (fun route => pyLower route.name == pyLower rn)
           = none →
       iot_hub_route_update hub rg hn rn st en e c = .error ⟨"No route found."⟩) ∧
    (∀ (hub : IotHubDescription) (rg hn k v : String) (eps : List String)
       (l : List EnrichmentProperties),
       hub.properties.routing.enrichments = some l →
       l.find? (fun endpoint => endpoint.key == k) = none →
       iot_message_enrichment_update hub rg hn k v eps =
         .error ⟨"No message enrichment with that key exists"⟩) ∧
    (∀ (hub : IotHubDescription) (rg hn k : String) (l : List EnrichmentProperties),
       hub.properties.routing.enrichments = some l →
       l.find? (fun endpoint => endpoint.key == k) = none →
       iot_message_enrichment_delete hub rg hn k =
         .error ⟨"No message enrichment with that key exists"⟩) ∧
    (∀ (hub : IotHubDescription) (rg hn n : String), n ≠ "" →
       hub.properties.routing.routes.any (fun route => pyLower route.name == pyLower n)
           = false →
       iot_hub_route_delete hub rg hn (some n) none =
         { resource_group_name := rg, name := hn, body := hub,
           ifMatch := some hub.etag }) ∧
    (∀ (hub : IotHubDescription) (rg hn n : String), n ≠ "" →
       hub.properties.routing.endpoints.service_bus_queues.any
           (fun e => pyLower e.name == pyLower n) = false →
       hub.properties.routing.endpoints.service_bus_topics.any
           (fun e => pyLower e.name == pyLower n) = false →
       hub.properties.routing.endpoints.storage_containers.any
           (fun e => pyLower e.name == pyLower n) = false →
       hub.properties.routing.endpoints.event_hubs.any
           (fun e => pyLower e.name == pyLower n) = false →
       iot_hub_routing_endpoint_delete hub rg hn (some n) none =
         { resource_group_name := rg, name := hn, body := hub,
           ifMatch := some hub.etag }) := by
  refine ⟨?_, ?_, ?_, ?_, ?_, ?_, ?_, ?_, ?_⟩
  · intro dps dn rg n pk sk r h
    simp [iot_dps_access_policy_update, h]
  · intro dps dn rg n h
    simp [iot_dps_access_policy_delete, h]
  · intro dps dn rg n ap w h
    simp [iot_dps_linked_hub_update, h]
  · intro dps dn rg n h
    simp [iot_dps_linked_hub_delete, h]
  · intro hub rg hn rn st en e c h
    simp [iot_hub_route_update, h]
  · intro hub rg hn k v eps l hl h
    simp [iot_message_enrichment_update, hl, h]
  · intro hub rg hn k l hl h
    simp [iot_message_enrichment_delete, hl, h]
  · intro hub rg hn n hn0 hany
    have hb : (n != "") = true := by simpa using hn0
    have hfil : hub.properties.routing.routes.filter
        (fun route => pyLower route.name != pyLower n) = hub.properties.routing.routes := by
      refine List.filter_eq_self.mpr ?_
      intro a ha
      have h1 := List.any_eq_false.mp hany a ha
      simpa using h1
    unfold iot_hub_route_delete
    simp only [truthy, hb, Bool.not_true, Bool.false_and, if_neg, Bool.false_eq_true,
      not_false_eq_true, if_false]
    have hbeq : (n == "") = false := by simpa using hn0
    simp only [hbeq, Bool.false_eq_true, if_false, hfil]
  · intro hub rg hn n hn0 hq ht hs he
    have hb : (n != "") = true := by simpa using hn0
    have hE : _delete_routing_endpoints (some n) none hub.properties.routing.endpoints =
        hub.properties.routing.endpoints := by
      unfold _delete_routing_endpoints
      simp [truthy, hb, hq, ht, hs, he]
    unfold iot_hub_routing_endpoint_delete
    rw [hE]

/-- Witness for C2 at concrete states: updating the missing access policy
`ghost` fails with its not-found error, and deleting the missing route name
`zzz` resubmits `exHub` unchanged. -/
theorem named_mutation_missing_entry_behaviour_witness :
    iot_dps_access_policy_update exDps "dps1" "rg" "ghost" none (some "C") none =
      .error ⟨"Access policy ghost doesn't exist."⟩ ∧
    iot_hub_route_delete exHub "rg" "hub1" (some "zzz") none =
      { resource_group_name := "rg", name := "hub1", body := exHub,
        ifMatch := some "etag-0" } :=
  ⟨named_mutation_missing_entry_behaviour.1 exDps "dps1" "rg" "ghost"
      none (some "C") none (by decide),
   named_mutation_missing_entry_behaviour.2.2.2.2.2.2.2.1 exHub "rg" "hub1" "zzz"
      (by decide) (by decide)⟩

/-- C3: partial update by omission on an existing sub-entity.  A DPS
access-policy update called with a stored entry's exact name succeeds and
rewrites exactly the entries carrying that name: each keeps its key name,
takes every supplied field's new value and retains every omitted field's prior
value.  The route update does the same on the first case-insensitive name
match.  In particular a policy with primary key A and secondary key B updated
with only secondary key C keeps A and gets C (see the witness). -/
theorem update_applies_only_supplied_fields :
    (∀ (dps : ProvisioningServiceDescription) (dn rg n : String)
       (pk sk : Option String) (r : Option (List String))
       (p : SharedAccessSignatureAuthorizationRuleAccessRightsDescription),
       p ∈ dps.properties.authorization_policies → p.key_name = n →
       (iot_dps_access_policy_update dps dn rg n pk sk r).map
           (fun q => q.body.properties.authorization_policies) =
         .ok (dps.properties.authorization_policies.map (fun policy =>
           if policy.key_name == n then
             { key_name := policy.key_name,
               rights := (match r with
                 | some rl => _convert_rights_to_access_rights rl
                 | none => policy.rights),
               primary_key := (match pk with | some k => some k | none => policy.primary_key),
               secondary_key := (match sk with | some k => some k | none => policy.secondary_key) }
           else policy))) ∧
    (∀ (hub : IotHubDescription) (rg hn rn : String) (st en : Option String)
       (e : Option Bool) (c : Option String) (route : RouteProperties),
       route ∈ hub.properties.routing.routes → pyLower route.name = pyLower rn →
       (iot_hub_route_update hub rg hn rn st en e c).map
           (fun q => q.body.properties.routing.routes) =
         .ok (updateFirst (fun route0 => pyLower route0.name == pyLower rn)
           (fun route0 =>
             { source := (match st with | none => route0.source | some s => s),
               name := route0.name,
               endpoint_names := (match en with
                 | none => route0.endpoint_names
                 | some e0 => pySplit e0),
               condition := (match c with | none => route0.condition | some c0 => c0),
               is_enabled := (match e with | none => route0.is_enabled | some b => b) })
           hub.properties.routing.routes)) := by
  constructor
  · intro dps dn rg n pk sk r p hp hn
    have hmem : pyLower n ∈
        ((dps.properties.authorization_policies.map (fun p0 => p0.key_name)).map pyLower) :=
      List.mem_map.mpr ⟨n, List.mem_map.mpr ⟨p, hp, hn⟩, rfl⟩
    have hex : _is_policy_existed
        (dps.properties.authorization_policies.map (fun p0 => p0.key_name)) n = true := by
      unfold _is_policy_existed
      exact List.elem_eq_true_of_mem hmem
    simp [iot_dps_access_policy_update, hex, Except.map]
  · intro hub rg hn rn st en e c route hmem hname
    have hfind : (hub.properties.routing.routes.find?
        (fun route0 => pyLower route0.name == pyLower rn)).isSome := by
      refine List.find?_isSome.mpr ⟨route, hmem, ?_⟩
      simp [hname]
    rcases hsome : hub.properties.routing.routes.find?
        (fun route0 => pyLower route0.name == pyLower rn) with _ | r0
    · rw [hsome] at hfind; cases hfind
    · simp [iot_hub_route_update, hsome, Except.map]

/-- Witness for C3 at a concrete state: the stored policy has primary key `A`
and secondary key `B`; updating with only secondary key `C` keeps `A` and sets
`C`; updating route `Route1` (stored `route1`) with only `enabled := false`
flips the flag and keeps every other field. -/
theorem update_applies_only_supplied_fields_witness :
    (iot_dps_access_policy_update exDps "dps1" "rg" "policy1" none (some "C") none).map
      (fun q => q.body.properties.authorization_policies) =
      .ok [{ key_name := "policy1", rights := "ServiceConfig",
             primary_key := some "A", secondary_key := some "C" }] ∧
    (iot_hub_route_update exHub "rg" "hub1" "Route1" none none (some false) none).map
      (fun q => q.body.properties.routing.routes) =
      .ok [{ source := "DeviceMessages", name := "route1", endpoint_names := ["epQ"],
             condition := "true", is_enabled := false }] :=
  ⟨update_applies_only_supplied_fields.1 exDps "dps1" "rg" "policy1" none (some "C") none
      exPolicy1 (by decide) rfl,
   update_applies_only_supplied_fields.2 exHub "rg" "hub1" "Route1" none none (some false) none
      exRoute (by decide) (by decide)⟩

/-- Every successful result of `r` carries `tag` as its IF-MATCH header. -/
def okIfMatch {α : Type} (r : Except CLIError (UpdateRequest α)) (tag : Option String) : Prop :=
  ∀ req, r = .ok req → req.ifMatch = tag

/-- C6 counterexample: the DPS access-policy create resubmits the mutated
parent provisioning service without any IF-MATCH precondition. -/
theorem dps_resubmission_has_no_ifmatch_counterexample :
    (iot_dps_access_policy_create exDps "dps1" "rg" "policy2" ["EnrollmentWrite"]
        none none).map (fun r => r.ifMatch) = .ok none := by
  decide

/-- C6 amended: every resubmission of a mutated parent in the IoT Hub family
passes the fetched hub's entity tag as an IF-MATCH precondition, while every
resubmission in the DPS family passes no IF-MATCH precondition at all. -/
theorem resubmission_ifmatch_by_family :
    (∀ (hub : IotHubDescription) (hn n : String) (perms : List String),
       okIfMatch (iot_hub_policy_create hub hn n perms) (some hub.etag)) ∧
    (∀ (hub : IotHubDescription) (hn n : String),
       okIfMatch (iot_hub_policy_delete hub hn n) (some hub.etag)) ∧
    (∀ (hub : IotHubDescription) (rg hn en et erg sub cs : String)
       (cn enc : Option String) (bf cw : Nat) (fmt : String),
       okIfMatch (iot_hub_routing_endpoint_create hub rg hn en et erg sub cs cn enc bf cw fmt)
         (some hub.etag)) ∧
    (∀ (hub : IotHubDescription) (rg hn : String) (n t : Option String),
       (iot_hub_routing_endpoint_delete hub rg hn n t).ifMatch = some hub.etag) ∧
    (∀ (hub : IotHubDescription) (rg hn rn st en : String) (e : Option Bool)
       (c : Option String),
       (iot_hub_route_create hub rg hn rn st en e c).ifMatch = some hub.etag) ∧
    (∀ (hub : IotHubDescription) (rg hn : String) (n t : Option String),
       (iot_hub_route_delete hub rg hn n t).ifMatch = some hub.etag) ∧
    (∀ (hub : IotHubDescription) (rg hn rn : String) (st en : Option String)
       (e : Option Bool) (c : Option String),
       okIfMatch (iot_hub_route_update hub rg hn rn st en e c) (some hub.etag)) ∧
    (∀ (hub : IotHubDescription) (rg hn k v : String) (eps : List String),
       (iot_message_enrichment_create hub rg hn k v eps).ifMatch = some hub.etag) ∧
    (∀ (hub : IotHubDescription) (rg hn k v : String) (eps : List String),
       okIfMatch (iot_message_enrichment_update hub rg hn k v eps) (some hub.etag)) ∧
    (∀ (hub : IotHubDescription) (rg hn k : String),
       okIfMatch (iot_message_enrichment_delete hub rg hn k) (some hub.etag)) ∧
    (∀ (dps : ProvisioningServiceDescription) (dn rg n : String) (r : List String)
       (pk sk : Option String),
       okIfMatch (iot_dps_access_policy_create dps dn rg n r pk sk) none) ∧
    (∀ (dps : ProvisioningServiceDescription) (dn rg n : String) (pk sk : Option String)
       (r : Option (List String)),
       okIfMatch (iot_dps_access_policy_update dps dn rg n pk sk r) none) ∧
    (∀ (dps : ProvisioningServiceDescription) (dn rg n : String),
       okIfMatch (iot_dps_access_policy_delete dps dn rg n) none) ∧
    (∀ (dps : ProvisioningServiceDescription) (dn rg cs loc : String)
       (ap : Option Bool) (w : Option Nat),
       (iot_dps_linked_hub_create dps dn rg cs loc ap w).ifMatch = none) ∧
    (∀ (dps : ProvisioningServiceDescription) (dn rg n : String) (ap : Option Bool)
       (w : Option Nat),
       okIfMatch (iot_dps_linked_hub_update dps dn rg n ap w) none) ∧
    (∀ (dps : ProvisioningServiceDescription) (dn rg n : String),
       okIfMatch (iot_dps_linked_hub_delete dps dn rg n) none) := by
  refine ⟨?_, ?_, ?_, fun _ _ _ _ _ => rfl, fun _ _ _ _ _ _ _ _ => rfl,
          fun _ _ _ _ _ => rfl, ?_, fun _ _ _ _ _ _ => rfl, ?_, ?_, ?_, ?_, ?_,
          fun _ _ _ _ _ _ _ => rfl, ?_, ?_⟩
  · intro hub hn n perms req h
    simp only [iot_hub_policy_create] at h
    repeat' split at h
    all_goals first
      | (injection h with h2; subst h2; rfl)
      | (injection h)
  · intro hub hn n req h
    simp only [iot_hub_policy_delete] at h
    repeat' split at h
    all_goals first
      | (injection h with h2; subst h2; rfl)
      | (injection h)
  · intro hub rg hn en et erg sub cs cn enc bf cw fmt req h
    simp only [iot_hub_routing_endpoint_create] at h
    repeat' split at h
    all_goals first
      | (injection h with h2; subst h2; rfl)
      | (injection h)
  · intro hub rg hn rn st en e c req h
    simp only [iot_hub_route_update] at h
    repeat' split at h
    all_goals first
      | (injection h with h2; subst h2; rfl)
      | (injection h)
  · intro hub rg hn k v eps req h
    simp only [iot_message_enrichment_update] at h
    repeat' split at h
    all_goals first
      | (injection h with h2; subst h2; rfl)
      | (injection h)
  · intro hub rg hn k req h
    simp only [iot_message_enrichment_delete] at h
    repeat' split at h
    all_goals first
      | (injection h with h2; subst h2; rfl)
      | (injection h)
  · intro dps dn rg n r pk sk req h
    simp only [iot_dps_access_policy_create] at h
    repeat' split at h
    all_goals first
      | (injection h with h2; subst h2; rfl)
      | (injection h)
  · intro dps dn rg n pk sk r req h
    simp only [iot_dps_access_policy_update] at h
    repeat' split at h
    all_goals first
      | (injection h with h2; subst h2; rfl)
      | (injection h)
  · intro dps dn rg n req h
    simp only [iot_dps_access_policy_delete] at h
    repeat' split at h
    all_goals first
      | (injection h with h2; subst h2; rfl)
      | (injection h)
  · intro dps dn rg n ap w req h
    simp only [iot_dps_linked_hub_update] at h
    repeat' split at h
    all_goals first
      | (injection h with h2; subst h2; rfl)
      | (injection h)
  · intro dps dn rg n req h
    simp only [iot_dps_linked_hub_delete] at h
    repeat' split at h
    all_goals first
      | (injection h with h2; subst h2; rfl)
      | (injection h)

/-- Witness for C6 at concrete states: a successful DPS access-policy delete
resubmits with no IF-MATCH, and a route create resubmits with the hub's tag. -/
theorem resubmission_ifmatch_by_family_witness :
    (iot_dps_access_policy_delete exDps "dps1" "rg" "policy1").map (fun r => r.ifMatch) =
      .ok (none : Option String) ∧
    (iot_hub_route_create exHub "rg" "hub1" "r2" "src" "epQ" none none).ifMatch =
      some "etag-0" := by
  constructor
  · have hok : (iot_dps_access_policy_delete exDps "dps1" "rg" "policy1").isOk = true := by
      decide
    rcases hres : iot_dps_access_policy_delete exDps "dps1" "rg" "policy1" with e | req
    · rw [hres] at hok; cases hok
    · have htag := resubmission_ifmatch_by_family.2.2.2.2.2.2.2.2.2.2.2.2.1
        exDps "dps1" "rg" "policy1" req hres
      simp [Except.map, htag]
  · exact resubmission_ifmatch_by_family.2.2.2.2.1 exHub "rg" "hub1" "r2" "src" "epQ" none none

/-- C8 counterexample: the update path accepts enabling file-upload
notifications with neither storage argument supplied — it merely sets the flag
and succeeds, instead of failing validation. -/
theorem update_enable_notifications_without_storage_counterexample :
    update_iot_hub_custom exHub none none none none none none none none (some true)
        none none none none none =
      .ok { exHub with properties.enable_file_upload_notifications := true } := by
  decide

/-- C8 amended: in `iot_hub_create`, enabling file-upload notifications
without both storage arguments, or supplying exactly one of the storage
connection string and container name, fails with the corresponding error for
every possible client reply — i.e. before any network call; in
`update_iot_hub_custom` only the supply-exactly-one condition fails, while
enabling notifications without the storage arguments succeeds and merely sets
the flag. -/
theorem fileupload_validation_behaviour :
    (∀ (na : Option NameAvailabilityInfo) (rgl hn rg : String) (loc : Option String)
       (sku : String) (u pc rd ct cm fl ft fm : Nat) (cs cn : Option String)
       (nmax nttl sast : Nat),
       truthy cs = false ∨ truthy cn = false →
       iot_hub_create na rgl hn rg loc sku u pc rd ct cm fl ft fm true nmax nttl cs cn sast =
         .error ⟨"Please specify storage endpoint(storage connection string and storage container name)."⟩) ∧
    (∀ (na : Option NameAvailabilityInfo) (rgl hn rg : String) (loc : Option String)
       (sku : String) (u pc rd ct cm fl ft fm : Nat) (cs cn : Option String)
       (nmax nttl sast : Nat),
       truthy cs = true → truthy cn = false →
       iot_hub_create na rgl hn rg loc sku u pc rd ct cm fl ft fm false nmax nttl cs cn sast =
         .error ⟨"Please mention storage container name."⟩) ∧
    (∀ (na : Option NameAvailabilityInfo) (rgl hn rg : String) (loc : Option String)
       (sku : String) (u pc rd ct cm fl ft fm : Nat) (cs cn : Option String)
       (nmax nttl sast : Nat),
       truthy cn = true → truthy cs = false →
       iot_hub_create na rgl hn rg loc sku u pc rd ct cm fl ft fm false nmax nttl cs cn sast =
         .error ⟨"Please mention storage connection string."⟩) ∧
    (∀ (inst : IotHubDescription) (sku : Option String)
       (u rd ct cm fl ft fm : Option Nat) (en : Option Bool) (nmax nttl : Option Nat)
       (s : String) (sast : Option Nat),
       update_iot_hub_custom inst sku u rd ct cm fl ft fm en nmax nttl (some s) none sast =
         .error ⟨"Please mention storage container name."⟩) ∧
    (∀ (inst : IotHubDescription) (sku : Option String)
       (u rd ct cm fl ft fm : Option Nat) (en : Option Bool) (nmax nttl : Option Nat)
       (s : String) (sast : Option Nat),
       update_iot_hub_custom inst sku u rd ct cm fl ft fm en nmax nttl none (some s) sast =
         .error ⟨"Please mention storage connection string."⟩) ∧
    (∀ (inst : IotHubDescription) (b : Bool),
       update_iot_hub_custom inst none none none none none none none none (some b)
           none none none none none =
         .ok { inst with properties.enable_file_upload_notifications := b }) := by
  refine ⟨?_, ?_, ?_, fun _ _ _ _ _ _ _ _ _ _ _ _ _ _ => rfl,
          fun _ _ _ _ _ _ _ _ _ _ _ _ _ _ => rfl, fun _ _ => rfl⟩
  · intro na rgl hn rg loc sku u pc rd ct cm fl ft fm cs cn nmax nttl sast h
    rcases h with h | h <;> simp [iot_hub_create, h]
  · intro na rgl hn rg loc sku u pc rd ct cm fl ft fm cs cn nmax nttl sast h1 h2
    simp [iot_hub_create, h1, h2]
  · intro na rgl hn rg loc sku u pc rd ct cm fl ft fm cs cn nmax nttl sast h1 h2
    simp [iot_hub_create, h1, h2]

/-- Witness for C8 at concrete inputs: creating with notifications enabled and
no storage arguments fails with the storage-endpoint error (whatever the
name-availability reply), and an update supplying only the connection string
fails asking for the container name. -/
theorem fileupload_validation_behaviour_witness :
    iot_hub_create none "westus" "h" "rg" none "f1" 1 4 1 1 10 5 1 10 true 10 1
        none none 1 =
      .error ⟨"Please specify storage endpoint(storage connection string and storage container name)."⟩ ∧
    update_iot_hub_custom exHub none none none none none none none none none
        none none (some "cs") none none =
      .error ⟨"Please mention storage container name."⟩ :=
  ⟨fileupload_validation_behaviour.1 none "westus" "h" "rg" none "f1" 1 4 1 1 10 5 1 10
      none none 10 1 1 (Or.inl rfl),
   fileupload_validation_behaviour.2.2.2.1 exHub none none none none none none none none
      none none none "cs" none⟩

end AzureIot
